import Mathlib

/-!
Shallow embedding of `Telegram/SourceFiles/inline_bots/bot_attach_web_view.cpp`
(namespace `InlineBots`, class `AttachWebView`).

Modelling conventions:
* The single-threaded orchestrator object is a `State` record mirroring the
  member fields of `AttachWebView`; each member function becomes a Lean
  function `State → ... → State × List Event`.
* Remote calls, UI-surface operations, toasts and storage writes are recorded
  as `Event`s in the order the source performs them.  MTP request handles are
  modelled as the `Nat` ids the source stores (`0` = no request), with a
  monotone fresh-id counter `nextReqId` standing for the ids handed out by
  `_session->api().request(...).send()`.
* Asynchronous completion lambdas become separate step functions
  (`openRequestDone`, `openRequestFail`, ...).  The MTP layer never delivers a
  completion for a cancelled request, so a completion step only fires when the
  id it carries is still the pending one of the matching kind.
* Membership of the process-wide `ActiveWebViews()` registry is the boolean
  field `active` (one orchestrator instance is modelled).
* The user's choice in a confirm box is passed in as a boolean oracle
  `decision`; the box itself only runs its callback on acceptance.
* Pure presentation (`BotAction`, `MakeAttachBotsMenu`, icon rasterisation)
  and the document-cache side effects of icon pinning are outside the model.
-/

namespace InlineBots

/-- `kProlongTimeout = 60 * crl::time(1000)` (milliseconds). -/
def kProlongTimeout : Nat := 60 * 1000

/-- One entry of `MTPDattachMenuBot::vicons()`. -/
structure IconEntry where
  iconName : String
  documentId : Nat
deriving DecidableEq

/-- The wire data of one `MTPDattachMenuBot` record. -/
structure SnapshotEntry where
  botId : Nat
  shortName : String
  inactive : Bool
  icons : List IconEntry
deriving DecidableEq

/-- The attributes of a `UserData` object that this file reads.  Users are
interned per id by the data session, so two `UserData` values with the same id
denote the same object (pointer equality = id equality). -/
structure UserData where
  id : Nat
  username : String
  displayName : String
  isBot : Bool
  supportsAttachMenu : Bool
  isVerified : Bool
  botMenuButtonUrl : String
  botMenuButtonText : String
deriving DecidableEq

/-- `AttachWebViewBot` (icon modelled by its document id; the media view and
cache pinning are document-cache side effects outside the model). -/
structure AttachWebViewBot where
  userId : Nat
  icon : Option Nat
  botName : String
  inactive : Bool
deriving DecidableEq

/-- The local data session, as far as this file consults it: `peerByUsername`
is the local username cache, `userById` is `userLoaded` / `asUser`. -/
structure Env where
  peerByUsername : String → Option Nat
  userById : Nat → Option UserData

/-- `ResolveIcon`: the first icon named `"default_static"`. -/
def resolveIconDoc (icons : List IconEntry) : Option Nat :=
  match icons.find? (fun i => i.iconName == "default_static") with
  | some i => some i.documentId
  | none => none

/-- `ParseAttachBot`: requires the user to be loaded, a bot, and to support
the attach menu; otherwise the entry is dropped. -/
def parseAttachBot (env : Env) (entry : SnapshotEntry) : Option AttachWebViewBot :=
  match env.userById entry.botId with
  | some u =>
    if u.isBot && u.supportsAttachMenu then
      some { userId := u.id
             icon := resolveIconDoc entry.icons
             botName := entry.shortName
             inactive := entry.inactive }
    else none
  | none => none

/-- Observable actions of the orchestrator, in program order: remote requests
issued / cancelled, UI-surface operations, storage writes, toasts. -/
inductive Event where
  | mtpCancel (requestId : Nat)
  | requestWebView (peer bot : Nat) (url startParam : String) (fromBotMenu : Bool)
  | requestSimpleWebView (bot : Nat) (url : String)
  | resolveUsernameReq (username : String)
  | getAttachMenuBots (hash : Int)
  | getAttachMenuBot (bot : Nat)
  | toggleBotInAttachMenu (bot : Nat) (enabled : Bool)
  | prolongWebView (peer bot queryId : Nat)
  | sendWebViewData (bot randomId : Nat) (buttonText payload : String)
  | panelCreated (url : String)
  | panelActivated
  | panelDestroyed
  | removedFromActive
  | promptShown (key botName : String)
  | trustMarked (bot : Nat)
  | hideLayer
  | toast (key : String)
  | attachBotsUpdated
  | callbackInvoked
deriving DecidableEq

/-- Which request the shared `_requestId` slot currently tracks (the source
reuses one field for the open, simple, menu and resolve requests). -/
inductive ReqKind where
  | noReq
  | openReq
  | simpleReq
  | menuReq
  | resolveReq
deriving DecidableEq

/-- `WebViewButton`. -/
structure WebViewButton where
  text : String := ""
  url : String := ""
  startCommand : String := ""
deriving DecidableEq

/-- The member fields of `AttachWebView` (plus the trust storage it reads,
the pending-request bookkeeping described above, and the flag recording that
`started()` installed the keepalive / result-sent subscriptions into the
panel's lifetime). -/
structure State where
  requestId : Nat := 0
  pendingKind : ReqKind := ReqKind.noReq
  pendingButtonText : String := ""
  prolongId : Nat := 0
  botsRequestId : Nat := 0
  addToMenuId : Nat := 0
  panel : Bool := false
  keepaliveTimer : Bool := false
  liveQueryId : Nat := 0
  panelButtonText : String := ""
  peer : Option Nat := none
  bot : Option UserData := none
  botUsername : String := ""
  startCommand : String := ""
  active : Bool := false
  trusted : List Nat := []
  attachBots : List AttachWebViewBot := []
  botsHash : Int := 0
  addToMenuBot : Option UserData := none
  addToMenuPeer : Option Nat := none
  addToMenuStartCommand : String := ""
  nextReqId : Nat := 1
deriving DecidableEq

/-- `_session->api().request(rid).cancel()`: cancelling handle `0` is a no-op. -/
def apiCancel (rid : Nat) : List Event :=
  if rid = 0 then [] else [Event.mtpCancel rid]

/-- The events emitted by `AttachWebView::cancel()`, in source order:
registry removal, cancel of `_requestId`, cancel of `_prolongId`, panel
destruction. -/
def cancelEvents (s : State) : List Event :=
  (if s.active then [Event.removedFromActive] else [])
    ++ apiCancel s.requestId
    ++ apiCancel s.prolongId
    ++ (if s.panel then [Event.panelDestroyed] else [])

/-- The state after `AttachWebView::cancel()`.  Destroying `_panel` also
destroys the subscriptions `started()` put into its lifetime. -/
def cancelledState (s : State) : State :=
  { s with active := false
           requestId := 0
           prolongId := 0
           panel := false
           keepaliveTimer := false
           peer := none
           bot := none
           botUsername := ""
           startCommand := "" }

/-- `AttachWebView::cancel()`. -/
def cancel (s : State) : State × List Event :=
  (cancelledState s, cancelEvents s)

/-- `AttachWebView::requestBots()`: a no-op while `_botsRequestId` is set;
otherwise issues `MTPmessages_GetAttachMenuBots(_botsHash)`. -/
def requestBots (s : State) : State × List Event :=
  if s.botsRequestId ≠ 0 then (s, [])
  else
    let rid := s.nextReqId
    ({ s with botsRequestId := rid, nextReqId := rid + 1 },
     [Event.getAttachMenuBots s.botsHash])

/-- The two shapes of an `MTPAttachMenuBots` response. -/
inductive AttachMenuBotsResult where
  | notModified
  | full (hash : Int) (entries : List SnapshotEntry)
deriving DecidableEq

/-- The `.done` handler of `requestBots`: `attachMenuBotsNotModified` leaves
everything untouched; a full snapshot replaces `_attachBots` (dropping
entries that fail `ParseAttachBot` and inactive entries) and fires
`_attachBotsUpdates`. -/
def botsDone (env : Env) (s : State) (rid : Nat)
    (result : AttachMenuBotsResult) : State × List Event :=
  if s.botsRequestId = rid ∧ rid ≠ 0 then
    let s1 := { s with botsRequestId := 0 }
    match result with
    | AttachMenuBotsResult.notModified => (s1, [])
    | AttachMenuBotsResult.full hash entries =>
      let bots := (entries.filterMap (parseAttachBot env)).filter
        (fun b => !b.inactive)
      ({ s1 with botsHash := hash, attachBots := bots },
       [Event.attachBotsUpdated])
  else (s, [])

/-- The `.fail` handler of `requestBots`: only clears `_botsRequestId`. -/
def botsFail (s : State) (rid : Nat) : State × List Event :=
  if s.botsRequestId = rid ∧ rid ≠ 0 then
    ({ s with botsRequestId := 0 }, [])
  else (s, [])

/-- `AttachWebView::request(const WebViewButton&)`: issues
`MTPmessages_RequestWebView` for the current `_peer`/`_bot` (the source
asserts both are set).  The `.done` lambda captures `button.text`; that
capture is `pendingButtonText`. -/
def requestButton (s : State) (button : WebViewButton) : State × List Event :=
  match s.peer, s.bot with
  | some peer, some b =>
    let s1 := { s with startCommand := button.startCommand
                       pendingButtonText := button.text
                       pendingKind := ReqKind.openReq }
    let rid := s1.nextReqId
    ({ s1 with requestId := rid, nextReqId := rid + 1 },
     [Event.requestWebView peer b.id button.url button.startCommand false])
  | _, _ => (s, [])

/-- `AttachWebView::confirmOpen(controller, done)`.  `decision` is the user's
choice in the confirm box; the box text is keyed `lng_allow_bot_webview` with
the bot's display name.  On acceptance the callback marks the bot trusted in
local storage, hides the layer, and runs `done`. -/
def confirmOpen (s : State) (decision : Bool)
    (done : State → State × List Event) : State × List Event :=
  match s.bot with
  | none => (s, [])
  | some b =>
    if b.isVerified = true ∨ s.trusted.contains b.id = true then
      done s
    else if decision then
      let s1 := { s with trusted := b.id :: s.trusted }
      let r := done s1
      (r.1, Event.promptShown "lng_allow_bot_webview" b.displayName
              :: Event.trustMarked b.id :: Event.hideLayer :: r.2)
    else
      (s, [Event.promptShown "lng_allow_bot_webview" b.displayName])

/-- The tail of `AttachWebView::request(controller, peer, bot, button)` after
the supersession `cancel()`: with a controller the open goes through
`confirmOpen`, without one it is issued directly. -/
def requestKnownRest (s : State) (hasController decision : Bool)
    (button : WebViewButton) : State × List Event :=
  if hasController then
    confirmOpen s decision (fun t => requestButton t button)
  else
    requestButton s button

/-- The unconditional part of `request(controller, peer, bot, button)`:
`cancel(); _bot = bot; _peer = peer;` then the controller branch. -/
def requestKnownProceed (s : State) (hasController decision : Bool)
    (peer : Nat) (bot : UserData) (button : WebViewButton) :
    State × List Event :=
  let s2 := { cancelledState s with bot := some bot, peer := some peer }
  let r := requestKnownRest s2 hasController decision button
  (r.1, cancelEvents s ++ r.2)

/-- `AttachWebView::request(Window::SessionController*, not_null<PeerData*>,
not_null<UserData*>, const WebViewButton&)`.  Note: when `_panel` is live for
the identical `(peer, bot)` pair the source activates the panel and then
still falls through to `cancel()` and a fresh request; only the
`_requestId`-pending branch returns early. -/
def requestKnown (s : State) (hasController decision : Bool) (peer : Nat)
    (bot : UserData) (button : WebViewButton) : State × List Event :=
  if s.peer = some peer ∧ s.bot = some bot then
    if s.panel then
      let r := requestKnownProceed s hasController decision peer bot button
      (r.1, Event.panelActivated :: r.2)
    else if s.requestId ≠ 0 then
      (s, [])
    else
      requestKnownProceed s hasController decision peer bot button
  else
    requestKnownProceed s hasController decision peer bot button

/-- `AttachWebView::started(queryId)` subscription state: both the
`webViewResultSent` filter and the `base::timer_each(kProlongTimeout)` ticker
are installed into the panel's lifetime, unconditionally. -/
def started (s : State) (queryId : Nat) : State :=
  { s with keepaliveTimer := true, liveQueryId := queryId }

/-- `AttachWebView::show(queryId, url, buttonText)`: registers the
orchestrator in `ActiveWebViews()`, creates the panel (whose `sendData`
callback captures `queryId` and `buttonText`), then calls `started`. -/
def showPanel (s : State) (queryId : Nat) (url buttonText : String) :
    State × List Event :=
  match s.bot, s.peer with
  | some _, some _ =>
    let s1 := { s with active := true, panel := true,
                       panelButtonText := buttonText }
    (started s1 queryId, [Event.panelCreated url])
  | _, _ => (s, [])

/-- The `.done` handler of the general open request: clears `_requestId` and
shows the surface with the query id and url from the response. -/
def openRequestDone (s : State) (rid queryId : Nat) (url : String) :
    State × List Event :=
  if s.requestId = rid ∧ rid ≠ 0 ∧ s.pendingKind = ReqKind.openReq then
    showPanel { s with requestId := 0 } queryId url s.pendingButtonText
  else (s, [])

/-- The `.fail` handler of the general open request: clears `_requestId`;
the `BOT_INVALID` error class additionally triggers `requestBots()`.  The
open is never reissued here. -/
def openRequestFail (s : State) (rid : Nat) (errorType : String) :
    State × List Event :=
  if s.requestId = rid ∧ rid ≠ 0 ∧ s.pendingKind = ReqKind.openReq then
    let s1 := { s with requestId := 0 }
    if errorType = "BOT_INVALID" then requestBots s1 else (s1, [])
  else (s, [])

/-- `AttachWebView::requestSimple(const WebViewButton&)`: issues
`MTPmessages_RequestSimpleWebView` for `_bot`. -/
def requestSimpleButton (s : State) (button : WebViewButton) :
    State × List Event :=
  match s.bot with
  | some b =>
    let s1 := { s with pendingButtonText := button.text
                       pendingKind := ReqKind.simpleReq }
    let rid := s1.nextReqId
    ({ s1 with requestId := rid, nextReqId := rid + 1 },
     [Event.requestSimpleWebView b.id button.url])
  | none => (s, [])

/-- `AttachWebView::requestSimple(controller, bot, button)`:
`cancel(); _bot = bot; _peer = bot;` then `confirmOpen` into the simple
request. -/
def requestSimple (s : State) (decision : Bool) (bot : UserData)
    (button : WebViewButton) : State × List Event :=
  let s2 := { cancelledState s with bot := some bot, peer := some bot.id }
  let r := confirmOpen s2 decision (fun t => requestSimpleButton t button)
  (r.1, cancelEvents s ++ r.2)

/-- The `.done` handler of the simple request: `queryId` is the default
`uint64()`, i.e. `0`. -/
def simpleRequestDone (s : State) (rid : Nat) (url : String) :
    State × List Event :=
  if s.requestId = rid ∧ rid ≠ 0 ∧ s.pendingKind = ReqKind.simpleReq then
    showPanel { s with requestId := 0 } 0 url s.pendingButtonText
  else (s, [])

/-- The `.fail` handler of the simple request: only clears `_requestId`. -/
def simpleRequestFail (s : State) (rid : Nat) : State × List Event :=
  if s.requestId = rid ∧ rid ≠ 0 ∧ s.pendingKind = ReqKind.simpleReq then
    ({ s with requestId := 0 }, [])
  else (s, [])

/-- `AttachWebView::requestMenu(controller, bot)`: `cancel()`, set
`_bot = _peer = bot`, then `confirmOpen` into a `MTPmessages_RequestWebView`
with `f_from_bot_menu` whose url and button text come from the bot's own
menu-button configuration (captured at call time). -/
def requestMenu (s : State) (decision : Bool) (bot : UserData) :
    State × List Event :=
  let s2 := { cancelledState s with bot := some bot, peer := some bot.id }
  let url := bot.botMenuButtonUrl
  let text := bot.botMenuButtonText
  let r := confirmOpen s2 decision (fun t =>
    let t1 := { t with pendingButtonText := text
                       pendingKind := ReqKind.menuReq }
    let rid := t1.nextReqId
    ({ t1 with requestId := rid, nextReqId := rid + 1 },
     [Event.requestWebView bot.id bot.id url "" true]))
  (r.1, cancelEvents s ++ r.2)

/-- The `.done` handler of the menu request (same shape as the general one;
the captured button text is the bot's menu-button text). -/
def menuRequestDone (s : State) (rid queryId : Nat) (url : String) :
    State × List Event :=
  if s.requestId = rid ∧ rid ≠ 0 ∧ s.pendingKind = ReqKind.menuReq then
    showPanel { s with requestId := 0 } queryId url s.pendingButtonText
  else (s, [])

/-- The `.fail` handler of the menu request: clears `_requestId`;
`BOT_INVALID` triggers `requestBots()`; no automatic retry. -/
def menuRequestFail (s : State) (rid : Nat) (errorType : String) :
    State × List Event :=
  if s.requestId = rid ∧ rid ≠ 0 ∧ s.pendingKind = ReqKind.menuReq then
    let s1 := { s with requestId := 0 }
    if errorType = "BOT_INVALID" then requestBots s1 else (s1, [])
  else (s, [])

/-- `AttachWebView::toggleInMenu(bot, enabled, callback)`: issues
`MTPmessages_ToggleBotInAttachMenu`; the returned request id is discarded by
the source (not stored in any member field). -/
def toggleInMenu (s : State) (bot : UserData) (enabled : Bool) :
    State × List Event :=
  (s, [Event.toggleBotInAttachMenu bot.id enabled])

/-- The `.done` handler of `toggleInMenu`: zeroes `_requestId`, forces
`requestBots()`, then invokes the caller's callback if one was supplied
(callback bodies are external; the invocation itself is the event). -/
def toggleInMenuDone (s : State) (hasCallback : Bool) : State × List Event :=
  let s1 := { s with requestId := 0 }
  let r := requestBots s1
  (r.1, r.2 ++ (if hasCallback then [Event.callbackInvoked] else []))

/-- The `.fail` handler of `toggleInMenu`: `cancel()`. -/
def toggleInMenuFail (s : State) : State × List Event :=
  cancel s

/-- `AttachWebView::removeFromMenu(bot)` = `toggleInMenu(bot, false, toast)`
(the toast callback runs in `toggleInMenuDone`). -/
def removeFromMenu (s : State) (bot : UserData) : State × List Event :=
  toggleInMenu s bot false

/-- `AttachWebView::requestAddToMenu(peer, bot, startCommand)`: unsupported
bots get a toast and nothing else; a repeat call for the same bot already in
flight is a no-op (after updating the captured peer/start-parameter, as the
source does); a call for a different bot cancels the outstanding
`_addToMenuId` request first. -/
def requestAddToMenu (s : State) (peer : Option Nat) (bot : UserData)
    (startCommand : String) : State × List Event :=
  if ¬(bot.isBot = true ∧ bot.supportsAttachMenu = true) then
    (s, [Event.toast "lng_bot_menu_not_supported"])
  else
    let s1 := { s with addToMenuStartCommand := startCommand
                       addToMenuPeer := peer }
    if s1.addToMenuId ≠ 0 ∧ s1.addToMenuBot = some bot then
      (s1, [])
    else
      let evc := apiCancel s1.addToMenuId
      let rid := s1.nextReqId
      ({ s1 with addToMenuBot := some bot, addToMenuId := rid,
                 nextReqId := rid + 1 },
       evc ++ [Event.getAttachMenuBot bot.id])

/-- `AttachWebView::confirmAddToMenu(bot, callback)`: dropped when no active
window exists; otherwise shows the `lng_bot_add_to_menu` box and, on
acceptance, issues `toggleInMenu(bot.user, true, ...)` (the post-toggle
callback chain runs in `toggleInMenuDone`). -/
def confirmAddToMenu (s : State) (parsed : AttachWebViewBot)
    (botUser : UserData) (decision hasActiveWindow : Bool) :
    State × List Event :=
  if hasActiveWindow = false then (s, [])
  else if decision then
    let r := toggleInMenu s botUser true
    (r.1, Event.promptShown "lng_bot_add_to_menu" parsed.botName :: r.2)
  else
    (s, [Event.promptShown "lng_bot_add_to_menu" parsed.botName])

/-- The `.done` handler of `requestAddToMenu`: takes the captured bot,
context peer and start-parameter; a response for a different identity is
ignored; an inactive registration goes through `confirmAddToMenu`; an active
one refreshes the directory and opens (controller is null in the `open`
lambda), falling back to an "already added" toast without a context peer. -/
def addToMenuDone (env : Env) (s : State) (rid : Nat) (entry : SnapshotEntry)
    (decision hasActiveWindow : Bool) : State × List Event :=
  if s.addToMenuId = rid ∧ rid ≠ 0 then
    let botO := s.addToMenuBot
    let contextPeer := s.addToMenuPeer
    let startCommand := s.addToMenuStartCommand
    let s1 := { s with addToMenuId := 0, addToMenuBot := none,
                       addToMenuPeer := none, addToMenuStartCommand := "" }
    match botO, parseAttachBot env entry with
    | some botUser, some parsed =>
      if botUser.id = parsed.userId then
        if parsed.inactive then
          confirmAddToMenu s1 parsed botUser decision hasActiveWindow
        else
          let r1 := requestBots s1
          match contextPeer with
          | some cp =>
            let r2 := requestKnown r1.1 false false cp botUser
              { text := "", url := "", startCommand := startCommand }
            (r2.1, r1.2 ++ r2.2)
          | none =>
            (r1.1, r1.2 ++ [Event.toast "lng_bot_menu_already_added"])
      else (s1, [])
    | _, _ => (s1, [])
  else (s, [])

/-- The `.fail` handler of `requestAddToMenu`: clears the captured request
state and toasts "not supported". -/
def addToMenuFail (s : State) (rid : Nat) : State × List Event :=
  if s.addToMenuId = rid ∧ rid ≠ 0 then
    ({ s with addToMenuId := 0, addToMenuBot := none, addToMenuPeer := none,
              addToMenuStartCommand := "" },
     [Event.toast "lng_bot_menu_not_supported"])
  else (s, [])

/-- `AttachWebView::resolveUsername(username, done)`: a local-cache hit runs
`done` synchronously; otherwise the pending `_requestId` is cancelled and a
`MTPcontacts_ResolveUsername` request is issued. -/
def resolveUsername (env : Env) (s : State) (username : String)
    (done : State → Nat → State × List Event) : State × List Event :=
  match env.peerByUsername username with
  | some pid => done s pid
  | none =>
    let evc := apiCancel s.requestId
    let rid := s.nextReqId
    ({ s with requestId := rid, pendingKind := ReqKind.resolveReq,
              nextReqId := rid + 1 },
     evc ++ [Event.resolveUsernameReq username])

/-- The continuation `resolve()` passes to `resolveUsername`: `_bot` becomes
`peer->asUser()`; a non-user peer toasts and stops; otherwise
`requestAddToMenu(_peer, _bot, _startCommand)`. -/
def resolveContinuation (env : Env) (t : State) (pid : Nat) :
    State × List Event :=
  match env.userById pid with
  | some u =>
    let t1 := { t with bot := some u }
    requestAddToMenu t1 t1.peer u t1.startCommand
  | none =>
    ({ t with bot := none }, [Event.toast "lng_bot_menu_not_supported"])

/-- `AttachWebView::resolve()`. -/
def resolveStart (env : Env) (s : State) : State × List Event :=
  resolveUsername env s s.botUsername (resolveContinuation env)

/-- The `.done` handler of the `resolveUsername` request: clears
`_requestId`, ingests the embedded records (data-session side), and runs the
continuation when the response carries a peer. -/
def resolveDone (env : Env) (s : State) (rid : Nat) (pid : Option Nat) :
    State × List Event :=
  if s.requestId = rid ∧ rid ≠ 0 ∧ s.pendingKind = ReqKind.resolveReq then
    let s1 := { s with requestId := 0 }
    match pid with
    | some p => resolveContinuation env s1 p
    | none => (s1, [])
  else (s, [])

/-- The `.fail` handler of the `resolveUsername` request: clears
`_requestId`; error code 400 toasts "username not found"; other failures are
dropped. -/
def resolveFail (s : State) (rid errorCode : Nat) : State × List Event :=
  if s.requestId = rid ∧ rid ≠ 0 ∧ s.pendingKind = ReqKind.resolveReq then
    ({ s with requestId := 0 },
     if errorCode = 400 then [Event.toast "lng_username_not_found"] else [])
  else (s, [])

/-- `AttachWebView::request(peer, botUsername, startCommand)`: empty
username is dropped; an identical (peer, username, start-command) triple only
re-activates a live panel and returns; otherwise `cancel()` then
`resolve()`. -/
def requestByUsername (env : Env) (s : State) (peer : Nat)
    (botUsername startCommand : String) : State × List Event :=
  if botUsername = "" then (s, [])
  else
    let username :=
      match s.bot with
      | some b => b.username
      | none => s.botUsername
    if s.peer = some peer ∧ username.toLower = botUsername.toLower
        ∧ s.startCommand = startCommand then
      (s, if s.panel then [Event.panelActivated] else [])
    else
      let s2 := { cancelledState s with
                  peer := some peer
                  botUsername := botUsername
                  startCommand := startCommand }
      let r := resolveStart env s2
      (r.1, cancelEvents s ++ r.2)

/-- One tick of the `base::timer_each(kProlongTimeout)` subscription from
`started()` (alive while the panel that owns it is).  Each tick cancels a
still-pending `_prolongId` and issues `MTPmessages_ProlongWebView` with the
captured query id. -/
def prolongTick (s : State) : State × List Event :=
  if s.panel = true ∧ s.keepaliveTimer = true then
    match s.peer, s.bot with
    | some peer, some b =>
      let evc := apiCancel s.prolongId
      let rid := s.nextReqId
      ({ s with prolongId := rid, nextReqId := rid + 1 },
       evc ++ [Event.prolongWebView peer b.id s.liveQueryId])
    | _, _ => (s, [])
  else (s, [])

/-- The `webViewResultSent` subscription from `started()`: a sent-result
signal for the captured query id cancels the session. -/
def webViewResultSentStep (s : State) (sentQueryId : Nat) :
    State × List Event :=
  if s.panel = true ∧ s.keepaliveTimer = true ∧ sentQueryId = s.liveQueryId
  then cancel s
  else (s, [])

/-- The panel's `sendData` callback (installed by `show`, guarded by the
panel being alive): a no-op unless `_peer == _bot` and the captured query id
is zero; otherwise issues one `MTPmessages_SendWebViewData` (request id
discarded) and then `cancel()`s. -/
def panelSendData (s : State) (randomId : Nat) (payload : String) :
    State × List Event :=
  if s.panel = false then (s, [])
  else if s.peer ≠ s.bot.map UserData.id ∨ s.liveQueryId ≠ 0 then (s, [])
  else
    match s.bot with
    | some b =>
      let ev := Event.sendWebViewData b.id randomId s.panelButtonText payload
      let r := cancel s
      (r.1, ev :: r.2)
    | none => (s, [])

/-- Open-session requests (any of the three variants). -/
def isOpenRequest : Event → Bool
  | Event.requestWebView _ _ _ _ _ => true
  | Event.requestSimpleWebView _ _ => true
  | _ => false

/-- Toggle-registration requests. -/
def isToggleRequest : Event → Bool
  | Event.toggleBotInAttachMenu _ _ => true
  | _ => false

/-- Data-submission requests. -/
def isSendDataRequest : Event → Bool
  | Event.sendWebViewData _ _ _ _ => true
  | _ => false

/-- `cancel()` only cancels and tears down: it never issues an open, toggle
or send-data request. -/
theorem cancelEvents_kinds (s : State) :
    ∀ e ∈ cancelEvents s, isOpenRequest e = false
      ∧ isToggleRequest e = false ∧ isSendDataRequest e = false := by
  intro e he
  have hcases : e = Event.removedFromActive ∨ e = Event.mtpCancel s.requestId
      ∨ e = Event.mtpCancel s.prolongId ∨ e = Event.panelDestroyed := by
    by_cases ha : s.active <;> by_cases hr : s.requestId = 0 <;>
      by_cases hl : s.prolongId = 0 <;> by_cases hp : s.panel <;>
      simp [cancelEvents, apiCancel, ha, hr, hl, hp] at he <;> tauto
  rcases hcases with h | h | h | h <;> subst h <;>
    simp [isOpenRequest, isToggleRequest, isSendDataRequest]

/-- A concrete bot that is a verified attach-menu bot. -/
def demoBot : UserData :=
  { id := 2, username := "demo", displayName := "Demo", isBot := true,
    supportsAttachMenu := true, isVerified := true,
    botMenuButtonUrl := "", botMenuButtonText := "" }

/-- A state that is `Live` for the pair (peer 1, `demoBot`): a panel is up,
the orchestrator is in the active registry, no request is pending. -/
def liveSamePairState : State :=
  { panel := true, keepaliveTimer := true, liveQueryId := 5, active := true,
    peer := some 1, bot := some demoBot, nextReqId := 3,
    panelButtonText := "T" }

/-- C1: calling `request(controller, peer, bot, button)` for the identical
(peer, bot) pair while a panel is live activates the panel but then still
falls through to `cancel()` — destroying the live panel and its session —
and issues a fresh `MTPmessages_RequestWebView`.  This evaluates the code at
that input, contradicting the claim that such a call only re-activates the
surface, issues no second open request and cancels nothing. -/
theorem c1_reentrant_open_cancels_and_reissues :
    (requestKnown liveSamePairState false true 1 demoBot {}).2
      = [Event.panelActivated, Event.removedFromActive, Event.panelDestroyed,
         Event.requestWebView 1 2 "" "" false]
    ∧ (requestKnown liveSamePairState false true 1 demoBot {}).1.panel = false
    ∧ (requestKnown liveSamePairState false true 1 demoBot {}).1.requestId = 3 := by
  decide

/-- A concrete bot used with the simple-open variant (`_peer == _bot`). -/
def simpleBot : UserData :=
  { id := 7, username := "simple", displayName := "Simple", isBot := true,
    supportsAttachMenu := true, isVerified := true,
    botMenuButtonUrl := "", botMenuButtonText := "" }

/-- The state after a complete simple open: `requestSimple` from the idle
state (the bot is verified, so the trust gate passes through), then the
`.done` handler of the simple request with the response url. -/
def simpleOpened : State :=
  (simpleRequestDone
    (requestSimple {} true simpleBot
      { text := "T", url := "u", startCommand := "" }).1
    1 "https://e").1

/-- C2: a session opened through the simple variant (query id 0) still gets
the keepalive subscription — `started()` installs the
`base::timer_each(kProlongTimeout)` ticker unconditionally — and the first
tick issues a `MTPmessages_ProlongWebView` carrying query id 0.  This
evaluates the code on a simple session, contradicting the claim that no
keepalive timer is scheduled and no prolong request is ever issued for it. -/
theorem c2_simple_session_runs_keepalive :
    (requestSimple {} true simpleBot
        { text := "T", url := "u", startCommand := "" }).2
      = [Event.requestSimpleWebView 7 "u"]
    ∧ simpleOpened.liveQueryId = 0
    ∧ simpleOpened.keepaliveTimer = true
    ∧ (prolongTick simpleOpened).2 = [Event.prolongWebView 7 7 0] := by
  decide

/-- C4: `cancel()` is callable in every state; afterwards no open/resolve
request, no prolong request, no panel, no session context (peer, bot,
username, start-parameter all cleared) remain, the orchestrator is out of
the active-session registry, and a second `cancel()` changes nothing and
emits nothing (idempotence). -/
theorem c4_cancel_clears_and_idempotent (s : State) :
    (cancel s).1.requestId = 0
    ∧ (cancel s).1.prolongId = 0
    ∧ (cancel s).1.panel = false
    ∧ (cancel s).1.peer = none
    ∧ (cancel s).1.bot = none
    ∧ (cancel s).1.botUsername = ""
    ∧ (cancel s).1.startCommand = ""
    ∧ (cancel s).1.active = false
    ∧ cancel (cancel s).1 = ((cancel s).1, []) := by
  refine ⟨rfl, rfl, rfl, rfl, rfl, rfl, rfl, rfl, ?_⟩
  simp [cancel, cancelledState, cancelEvents, apiCancel]

/-- C5: a keepalive tick of a live session first cancels the still-pending
previous prolong request and only then issues the next one (so the single
`_prolongId` slot never tracks two outstanding prolongs), and the tick
interval constant is 60 seconds. -/
theorem c5_keepalive_single_prolong (s : State) (p : Nat) (b : UserData)
    (hpanel : s.panel = true) (hk : s.keepaliveTimer = true)
    (hp : s.peer = some p) (hb : s.bot = some b)
    (hq : s.liveQueryId ≠ 0) (hpending : s.prolongId ≠ 0) :
    (prolongTick s).2
      = [Event.mtpCancel s.prolongId,
         Event.prolongWebView p b.id s.liveQueryId]
    ∧ (prolongTick s).1.prolongId = s.nextReqId
    ∧ kProlongTimeout = 60 * 1000 := by
  refine ⟨?_, ?_, rfl⟩ <;>
    simp [prolongTick, hpanel, hk, hp, hb, apiCancel, hpending]

/-- `request(const WebViewButton&)` always stores the fresh id handed out by
the api in `_requestId` (the source asserts `_peer` and `_bot` are set). -/
theorem requestButton_requestId (s : State) (btn : WebViewButton)
    (hp : s.peer.isSome) (hb : s.bot.isSome) :
    (requestButton s btn).1.requestId = s.nextReqId := by
  rcases hpeq : s.peer with _ | p
  · rw [hpeq] at hp; simp at hp
  rcases hbeq : s.bot with _ | b
  · rw [hbeq] at hb; simp at hb
  simp [requestButton, hpeq, hbeq]

/-- After the supersession `cancel()`, the controller branch of the open
either leaves `_requestId` untouched (waiting at the trust prompt) or stores
the fresh id. -/
theorem requestKnownRest_requestId (s : State) (hc d : Bool)
    (btn : WebViewButton) (hp : s.peer.isSome) (hb : s.bot.isSome) :
    (requestKnownRest s hc d btn).1.requestId = s.requestId
    ∨ (requestKnownRest s hc d btn).1.requestId = s.nextReqId := by
  rcases hbeq : s.bot with _ | b
  · rw [hbeq] at hb; simp at hb
  cases hc
  · right
    simp only [requestKnownRest, Bool.false_eq_true, if_false]
    exact requestButton_requestId s btn hp (by rw [hbeq]; rfl)
  · by_cases htr : b.isVerified = true ∨ s.trusted.contains b.id = true
    · right
      simp only [requestKnownRest, if_true]
      simp only [confirmOpen, hbeq]
      rw [if_pos htr]
      exact requestButton_requestId s btn hp (by rw [hbeq]; rfl)
    · cases d
      · left
        simp only [requestKnownRest, if_true]
        simp only [confirmOpen, hbeq]
        rw [if_neg htr]
        simp
      · right
        simp only [requestKnownRest, if_true]
        simp only [confirmOpen, hbeq]
        rw [if_neg htr]
        simp only [Bool.true_eq_false, if_true]
        have : ({ s with trusted := b.id :: s.trusted } : State).nextReqId
            = s.nextReqId := rfl
        rw [← this]
        exact requestButton_requestId _ btn hp (by rw [show ({ s with trusted := b.id :: s.trusted } : State).bot = s.bot from rfl, hbeq]; rfl)

/-- C3: an open for a different (peer, bot) pair than the current one first
runs the full `cancel()` — its events, including the MTP cancel of the
pending request, all precede anything else, and none of them is an open
request — and the resulting pending id is never the old one, so the old
request's completion handler can no longer fire on the new state.
Likewise `resolveUsername` (on a local-cache miss) cancels the pending
`_requestId` before issuing the lookup, so at most one open/resolve request
is pending in the single `_requestId` slot and issuing a new one cancels the
previous. -/
theorem c3_supersession_cancels_previous (s : State) (peer : Nat)
    (bot : UserData) (hc d : Bool) (btn : WebViewButton) (env : Env)
    (username : String) (k : State → Nat → State × List Event)
    (hDiff : ¬(s.peer = some peer ∧ s.bot = some bot))
    (h0 : s.requestId ≠ 0) (hfresh : s.requestId < s.nextReqId)
    (hMiss : env.peerByUsername username = none) :
    (∃ tail, (requestKnown s hc d peer bot btn).2 = cancelEvents s ++ tail)
    ∧ Event.mtpCancel s.requestId ∈ cancelEvents s
    ∧ (∀ e ∈ cancelEvents s, isOpenRequest e = false)
    ∧ (requestKnown s hc d peer bot btn).1.requestId ≠ s.requestId
    ∧ (∀ q url, openRequestDone (requestKnown s hc d peer bot btn).1
          s.requestId q url = ((requestKnown s hc d peer bot btn).1, []))
    ∧ (resolveUsername env s username k).2
        = [Event.mtpCancel s.requestId, Event.resolveUsernameReq username]
    ∧ (resolveUsername env s username k).1.requestId ≠ s.requestId := by
  have hkn : requestKnown s hc d peer bot btn
      = requestKnownProceed s hc d peer bot btn := by
    rw [requestKnown, if_neg hDiff]
  have hne : (requestKnown s hc d peer bot btn).1.requestId ≠ s.requestId := by
    rw [hkn]
    have hcases := requestKnownRest_requestId
      { cancelledState s with bot := some bot, peer := some peer }
      hc d btn rfl rfl
    rcases hcases with hcase | hcase
    · rw [requestKnownProceed]
      intro hcontra
      rw [hcase] at hcontra
      exact h0 hcontra.symm
    · rw [requestKnownProceed]
      intro hcontra
      rw [hcase] at hcontra
      exact absurd hcontra.symm (Nat.ne_of_lt hfresh)
  refine ⟨?_, ?_, ?_, hne, ?_, ?_, ?_⟩
  · exact ⟨(requestKnownRest
      { cancelledState s with bot := some bot, peer := some peer }
      hc d btn).2, by rw [hkn]; rfl⟩
  · simp [cancelEvents, apiCancel, h0]
  · exact fun e he => (cancelEvents_kinds s e he).1
  · intro q url
    rw [openRequestDone, if_neg]
    rintro ⟨h1, -, -⟩
    exact hne h1
  · simp [resolveUsername, hMiss, apiCancel, h0]
  · simp only [resolveUsername, hMiss]
    exact fun hcontra => absurd hcontra.symm (Nat.ne_of_lt hfresh)

/-- A state with an open request (id 2) in flight for peer 1. -/
def supersededState : State :=
  { requestId := 2, pendingKind := ReqKind.openReq, nextReqId := 5,
    peer := some 1, active := true }

/-- A data session with an empty local cache. -/
def emptyEnv : Env :=
  { peerByUsername := fun _ => none, userById := fun _ => none }

/-- A trivial resolve continuation. -/
def trivialK : State → Nat → State × List Event := fun t _ => (t, [])

/-- Witness for C3: superseding the in-flight open for (peer 1) with an open
for (peer 4, `demoBot`). -/
theorem c3_supersession_cancels_previous_witness :
    (¬(supersededState.peer = some 4 ∧ supersededState.bot = some demoBot))
    ∧ supersededState.requestId ≠ 0
    ∧ supersededState.requestId < supersededState.nextReqId
    ∧ emptyEnv.peerByUsername "zz" = none
    ∧ ((∃ tail, (requestKnown supersededState false false 4 demoBot {}).2
          = cancelEvents supersededState ++ tail)
      ∧ Event.mtpCancel supersededState.requestId
          ∈ cancelEvents supersededState
      ∧ (∀ e ∈ cancelEvents supersededState, isOpenRequest e = false)
      ∧ (requestKnown supersededState false false 4 demoBot {}).1.requestId
          ≠ supersededState.requestId
      ∧ (∀ q url, openRequestDone
            (requestKnown supersededState false false 4 demoBot {}).1
            supersededState.requestId q url
          = ((requestKnown supersededState false false 4 demoBot {}).1, []))
      ∧ (resolveUsername emptyEnv supersededState "zz" trivialK).2
          = [Event.mtpCancel supersededState.requestId,
             Event.resolveUsernameReq "zz"]
      ∧ (resolveUsername emptyEnv supersededState "zz" trivialK).1.requestId
          ≠ supersededState.requestId) :=
  ⟨by decide, by decide, by decide, rfl,
   c3_supersession_cancels_previous supersededState 4 demoBot false false {}
     emptyEnv "zz" trivialK (by decide) (by decide) (by decide) rfl⟩

/-- C6: the consent prompt is skipped — the continuation runs immediately —
exactly when the bot is verified or a prior trust record exists; otherwise a
prompt carrying the bot's display name is shown, declining changes nothing
and issues nothing further, and accepting persists the trust record before
running the continuation. -/
theorem c6_trust_gate (s : State) (b : UserData) (d : Bool)
    (k : State → State × List Event) (hb : s.bot = some b) :
    ((b.isVerified = true ∨ s.trusted.contains b.id = true) →
        confirmOpen s d k = k s)
    ∧ (b.isVerified = false → s.trusted.contains b.id = false →
        confirmOpen s false k
          = (s, [Event.promptShown "lng_allow_bot_webview" b.displayName])
        ∧ (confirmOpen s true k).1
            = (k { s with trusted := b.id :: s.trusted }).1
        ∧ (confirmOpen s true k).2
            = Event.promptShown "lng_allow_bot_webview" b.displayName
              :: Event.trustMarked b.id :: Event.hideLayer
              :: (k { s with trusted := b.id :: s.trusted }).2) := by
  constructor
  · intro htr
    simp only [confirmOpen, hb]
    rw [if_pos htr]
  · intro hv ht
    have ht' : b.id ∉ s.trusted := by simpa using ht
    refine ⟨?_, ?_, ?_⟩ <;>
      simp [confirmOpen, hb, hv, ht']

/-- A plain (unverified, not yet trusted) attach-menu bot. -/
def plainBot : UserData :=
  { id := 4, username := "plain", displayName := "Plain", isBot := true,
    supportsAttachMenu := true, isVerified := false,
    botMenuButtonUrl := "", botMenuButtonText := "" }

/-- An idle orchestrator pointed at `plainBot`. -/
def plainBotState : State := { bot := some plainBot, peer := some 1 }

/-- The continuation the trust gate protects in the open path. -/
def openContinuation : State → State × List Event :=
  fun t => requestButton t {}

/-- Witness for C6 at `plainBotState` with the open continuation. -/
theorem c6_trust_gate_witness :
    plainBotState.bot = some plainBot
    ∧ (((plainBot.isVerified = true
          ∨ plainBotState.trusted.contains plainBot.id = true) →
        confirmOpen plainBotState true openContinuation
          = openContinuation plainBotState)
      ∧ (plainBot.isVerified = false →
          plainBotState.trusted.contains plainBot.id = false →
          confirmOpen plainBotState false openContinuation
            = (plainBotState,
               [Event.promptShown "lng_allow_bot_webview"
                  plainBot.displayName])
          ∧ (confirmOpen plainBotState true openContinuation).1
              = (openContinuation
                  { plainBotState with
                      trusted := plainBot.id :: plainBotState.trusted }).1
          ∧ (confirmOpen plainBotState true openContinuation).2
              = Event.promptShown "lng_allow_bot_webview" plainBot.displayName
                :: Event.trustMarked plainBot.id :: Event.hideLayer
                :: (openContinuation
                    { plainBotState with
                        trusted := plainBot.id :: plainBotState.trusted }).2)) :=
  ⟨rfl, c6_trust_gate plainBotState plainBot true openContinuation rfl⟩

/-- A live session with query id 9 and a prolong request (id 4) pending. -/
def liveProlongState : State :=
  { panel := true, keepaliveTimer := true, liveQueryId := 9,
    peer := some 3, bot := some demoBot, prolongId := 4, nextReqId := 6 }

/-- Witness for C5 at `liveProlongState`. -/
theorem c5_keepalive_single_prolong_witness :
    liveProlongState.panel = true
    ∧ liveProlongState.keepaliveTimer = true
    ∧ liveProlongState.peer = some 3
    ∧ liveProlongState.bot = some demoBot
    ∧ liveProlongState.liveQueryId ≠ 0
    ∧ liveProlongState.prolongId ≠ 0
    ∧ ((prolongTick liveProlongState).2
        = [Event.mtpCancel liveProlongState.prolongId,
           Event.prolongWebView 3 demoBot.id liveProlongState.liveQueryId]
      ∧ (prolongTick liveProlongState).1.prolongId
          = liveProlongState.nextReqId
      ∧ kProlongTimeout = 60 * 1000) :=
  ⟨rfl, rfl, rfl, rfl, by decide, by decide,
   c5_keepalive_single_prolong liveProlongState 3 demoBot rfl rfl rfl rfl
     (by decide) (by decide)⟩

/-- `cancel()` emits no data-submission request. -/
theorem cancelEvents_countP_send (s : State) :
    (cancelEvents s).countP isSendDataRequest = 0 :=
  List.countP_eq_zero.2
    (fun e he => by simp [(cancelEvents_kinds s e he).2.2])

/-- C7: issuing the toggle sends exactly one
`MTPmessages_ToggleBotInAttachMenu`; its success handler forces exactly one
directory refresh and then invokes the caller's completion callback; its
failure handler is exactly `cancel()`, which never re-issues the toggle. -/
theorem c7_toggle_success_refreshes_failure_cancels (s t : State)
    (c : UserData) (enabled : Bool) (h : s.botsRequestId = 0) :
    (toggleInMenu t c enabled).2
        = [Event.toggleBotInAttachMenu c.id enabled]
    ∧ (toggleInMenuDone s true).2
        = [Event.getAttachMenuBots s.botsHash, Event.callbackInvoked]
    ∧ toggleInMenuFail t = cancel t
    ∧ (∀ ev ∈ (toggleInMenuFail t).2, isToggleRequest ev = false) := by
  refine ⟨rfl, ?_, rfl, ?_⟩
  · simp [toggleInMenuDone, requestBots, h]
  · intro ev hev
    exact (cancelEvents_kinds t ev hev).2.1

/-- Witness for C7: toggling `demoBot` on, with the success handler run from
the idle state and the failure handler run from the live state. -/
theorem c7_toggle_witness :
    (({} : State).botsRequestId = 0)
    ∧ ((toggleInMenu liveSamePairState demoBot true).2
        = [Event.toggleBotInAttachMenu demoBot.id true]
      ∧ (toggleInMenuDone ({} : State) true).2
          = [Event.getAttachMenuBots ({} : State).botsHash,
             Event.callbackInvoked]
      ∧ toggleInMenuFail liveSamePairState = cancel liveSamePairState
      ∧ (∀ ev ∈ (toggleInMenuFail liveSamePairState).2,
            isToggleRequest ev = false)) :=
  ⟨rfl, c7_toggle_success_refreshes_failure_cancels {} liveSamePairState
    demoBot true rfl⟩

/-- C8: when the open request fails with `BOT_INVALID`, the handler issues
exactly one directory refresh and no open request (no retry); any other
error class does nothing beyond clearing the pending id.  This holds for
the general-open and the menu-open handlers alike. -/
theorem c8_bot_invalid_triggers_single_refresh (s t : State)
    (rid rid2 : Nat) (err : String)
    (h1 : s.requestId = rid) (h2 : rid ≠ 0)
    (h3 : s.pendingKind = ReqKind.openReq) (h4 : s.botsRequestId = 0)
    (g1 : t.requestId = rid2) (g2 : rid2 ≠ 0)
    (g3 : t.pendingKind = ReqKind.menuReq) (g4 : t.botsRequestId = 0) :
    (openRequestFail s rid "BOT_INVALID").2
        = [Event.getAttachMenuBots s.botsHash]
    ∧ (openRequestFail s rid "BOT_INVALID").2.countP isOpenRequest = 0
    ∧ (err ≠ "BOT_INVALID" → (openRequestFail s rid err).2 = [])
    ∧ (menuRequestFail t rid2 "BOT_INVALID").2
        = [Event.getAttachMenuBots t.botsHash]
    ∧ (menuRequestFail t rid2 "BOT_INVALID").2.countP isOpenRequest = 0
    ∧ (err ≠ "BOT_INVALID" → (menuRequestFail t rid2 err).2 = []) := by
  have ho : (openRequestFail s rid "BOT_INVALID").2
      = [Event.getAttachMenuBots s.botsHash] := by
    simp [openRequestFail, h1, h2, h3, h4, requestBots]
  have hm : (menuRequestFail t rid2 "BOT_INVALID").2
      = [Event.getAttachMenuBots t.botsHash] := by
    simp [menuRequestFail, g1, g2, g3, g4, requestBots]
  refine ⟨ho, ?_, ?_, hm, ?_, ?_⟩
  · rw [ho]; simp [List.countP_cons, List.countP_nil, isOpenRequest]
  · intro herr
    simp [openRequestFail, h1, h2, h3, herr]
  · rw [hm]; simp [List.countP_cons, List.countP_nil, isOpenRequest]
  · intro herr
    simp [menuRequestFail, g1, g2, g3, g4, herr]

/-- A state with the general open request (id 11) in flight. -/
def openPendingState : State :=
  { requestId := 11, pendingKind := ReqKind.openReq, nextReqId := 12,
    peer := some 1, bot := some demoBot, botsHash := 3 }

/-- A state with the menu open request (id 12) in flight. -/
def menuPendingState : State :=
  { requestId := 12, pendingKind := ReqKind.menuReq, nextReqId := 13,
    peer := some 2, bot := some demoBot, botsHash := 4 }

/-- Witness for C8 at the two pending states, with `FLOOD_WAIT_3` as the
other error class. -/
theorem c8_bot_invalid_triggers_single_refresh_witness :
    openPendingState.requestId = 11 ∧ (11 : Nat) ≠ 0
    ∧ openPendingState.pendingKind = ReqKind.openReq
    ∧ openPendingState.botsRequestId = 0
    ∧ menuPendingState.requestId = 12 ∧ (12 : Nat) ≠ 0
    ∧ menuPendingState.pendingKind = ReqKind.menuReq
    ∧ menuPendingState.botsRequestId = 0
    ∧ ((openRequestFail openPendingState 11 "BOT_INVALID").2
        = [Event.getAttachMenuBots openPendingState.botsHash]
      ∧ (openRequestFail openPendingState 11 "BOT_INVALID").2.countP
          isOpenRequest = 0
      ∧ ((("FLOOD_WAIT_3" : String) ≠ "BOT_INVALID") →
          (openRequestFail openPendingState 11 "FLOOD_WAIT_3").2 = [])
      ∧ (menuRequestFail menuPendingState 12 "BOT_INVALID").2
          = [Event.getAttachMenuBots menuPendingState.botsHash]
      ∧ (menuRequestFail menuPendingState 12 "BOT_INVALID").2.countP
          isOpenRequest = 0
      ∧ ((("FLOOD_WAIT_3" : String) ≠ "BOT_INVALID") →
          (menuRequestFail menuPendingState 12 "FLOOD_WAIT_3").2 = [])) :=
  ⟨rfl, by decide, rfl, rfl, rfl, by decide, rfl, rfl,
   c8_bot_invalid_triggers_single_refresh openPendingState menuPendingState
     11 12 "FLOOD_WAIT_3" rfl (by decide) rfl rfl rfl (by decide) rfl rfl⟩

/-- C9: `requestBots()` is a no-op while a snapshot request is in flight;
the "not modified" response leaves the cached agent set and version hash
unchanged and fires no update; a failed request also leaves both intact and
fires nothing. -/
theorem c9_directory_refresh_frame (s t u : State) (rid rid2 : Nat)
    (env : Env) (h : s.botsRequestId ≠ 0)
    (h1 : t.botsRequestId = rid) (h2 : rid ≠ 0)
    (g1 : u.botsRequestId = rid2) (g2 : rid2 ≠ 0) :
    requestBots s = (s, [])
    ∧ (botsDone env t rid AttachMenuBotsResult.notModified).1.attachBots
        = t.attachBots
    ∧ (botsDone env t rid AttachMenuBotsResult.notModified).1.botsHash
        = t.botsHash
    ∧ (botsDone env t rid AttachMenuBotsResult.notModified).2 = []
    ∧ (botsFail u rid2).1.attachBots = u.attachBots
    ∧ (botsFail u rid2).1.botsHash = u.botsHash
    ∧ (botsFail u rid2).2 = [] := by
  refine ⟨?_, ?_, ?_, ?_, ?_, ?_, ?_⟩ <;>
    simp [requestBots, botsDone, botsFail, h, h1, h2, g1, g2]

/-- A state with the directory snapshot request (id 21) in flight and a
cached snapshot. -/
def botsPendingState : State :=
  { botsRequestId := 21, nextReqId := 22, botsHash := 9,
    attachBots := [{ userId := 2, icon := some 5, botName := "demo",
                     inactive := false }] }

/-- Witness for C9 at `botsPendingState`. -/
theorem c9_directory_refresh_frame_witness :
    botsPendingState.botsRequestId ≠ 0
    ∧ botsPendingState.botsRequestId = 21 ∧ (21 : Nat) ≠ 0
    ∧ (requestBots botsPendingState = (botsPendingState, [])
      ∧ (botsDone emptyEnv botsPendingState 21
          AttachMenuBotsResult.notModified).1.attachBots
          = botsPendingState.attachBots
      ∧ (botsDone emptyEnv botsPendingState 21
          AttachMenuBotsResult.notModified).1.botsHash
          = botsPendingState.botsHash
      ∧ (botsDone emptyEnv botsPendingState 21
          AttachMenuBotsResult.notModified).2 = []
      ∧ (botsFail botsPendingState 21).1.attachBots
          = botsPendingState.attachBots
      ∧ (botsFail botsPendingState 21).1.botsHash
          = botsPendingState.botsHash
      ∧ (botsFail botsPendingState 21).2 = []) :=
  ⟨by decide, rfl, by decide,
   c9_directory_refresh_frame botsPendingState botsPendingState
     botsPendingState 21 21 emptyEnv (by decide) rfl (by decide) rfl
     (by decide)⟩

/-- C10: the panel's data-submission callback does nothing unless the
session context's peer is the bot itself and the captured query id is zero;
in that simple-session case it issues exactly one send-data request and then
immediately runs `cancel()`, tearing the surface down. -/
theorem c10_send_data_simple_only (s : State) (b : UserData)
    (randomId : Nat) (payload : String) (hpanel : s.panel = true) :
    ((s.peer ≠ s.bot.map UserData.id ∨ s.liveQueryId ≠ 0) →
        panelSendData s randomId payload = (s, []))
    ∧ (s.bot = some b → s.peer = some b.id → s.liveQueryId = 0 →
        (panelSendData s randomId payload).2
          = Event.sendWebViewData b.id randomId s.panelButtonText payload
            :: cancelEvents s
        ∧ (panelSendData s randomId payload).2.countP isSendDataRequest = 1
        ∧ (panelSendData s randomId payload).1 = cancelledState s) := by
  constructor
  · intro hcond
    rw [panelSendData, if_neg (by simp [hpanel]), if_pos hcond]
  · intro hbs hps hq
    have hcond : ¬(s.peer ≠ s.bot.map UserData.id ∨ s.liveQueryId ≠ 0) := by
      simp [hbs, hps, hq]
    have h2 : (panelSendData s randomId payload).2
        = Event.sendWebViewData b.id randomId s.panelButtonText payload
          :: cancelEvents s := by
      rw [panelSendData, if_neg (by simp [hpanel]), if_neg hcond]
      simp [hbs, cancel]
    refine ⟨h2, ?_, ?_⟩
    · rw [h2]
      simp [List.countP_cons, isSendDataRequest, cancelEvents_countP_send s]
    · rw [panelSendData, if_neg (by simp [hpanel]), if_neg hcond]
      simp [hbs, cancel]

/-- A live simple session (`_peer == _bot`, query id 0) ready to submit
data. -/
def sendReadyState : State :=
  { panel := true, keepaliveTimer := true, liveQueryId := 0,
    peer := some 7, bot := some simpleBot, active := true,
    panelButtonText := "T" }

/-- Witness for C10 at `sendReadyState`. -/
theorem c10_send_data_simple_only_witness :
    sendReadyState.panel = true
    ∧ (((sendReadyState.peer ≠ sendReadyState.bot.map UserData.id
          ∨ sendReadyState.liveQueryId ≠ 0) →
        panelSendData sendReadyState 42 "d" = (sendReadyState, []))
      ∧ (sendReadyState.bot = some simpleBot →
          sendReadyState.peer = some simpleBot.id →
          sendReadyState.liveQueryId = 0 →
          (panelSendData sendReadyState 42 "d").2
            = Event.sendWebViewData simpleBot.id 42
                sendReadyState.panelButtonText "d"
              :: cancelEvents sendReadyState
          ∧ (panelSendData sendReadyState 42 "d").2.countP
              isSendDataRequest = 1
          ∧ (panelSendData sendReadyState 42 "d").1
              = cancelledState sendReadyState)) :=
  ⟨rfl, c10_send_data_simple_only sendReadyState simpleBot 42 "d" rfl⟩

end InlineBots
